import Mathlib

/-!
Verification of the permission-resolution and invitation-lifecycle core of the
MultiView Calendar healthcare appointment system.

The definitions below are a shallow embedding of the TypeScript source:
  * `getUserAppointmentPermission` embeds `src/lib/permissions.ts`;
  * `postInvitation` embeds the POST handler of `src/app/api/invitations/route.ts`;
  * `acceptInvitation` embeds the POST handler of `api/invitations/accept` (token redemption);
  * `patchAppointment` / `deleteAppointment` embed the PATCH and DELETE handlers of
    `src/app/api/appointments/[id]/route.ts`;
  * `postAppointment` embeds the POST handler of `src/app/api/appointments/route.ts`;
  * `deleteAppointmentInvitation` / `deleteDashboardInvitation` embed the DELETE handlers
    of the appointment-scoped and dashboard-scoped invitation-discard routes.

Conventions: JavaScript `null`/`undefined` string values are `Option String` with `none`;
JavaScript falsiness of a string value (`!s`) additionally treats `""` as falsy and is
embedded explicitly.  Timestamps travel as ISO strings in the source and are compared via
`new Date(...)`; the embedding keeps them as strings and passes the date parse as an
explicit function `String → Option Int` (epoch milliseconds; `none` models `NaN`).
The SQL tables are embedded as lists of row structures, a SQL `UPDATE ... WHERE`
as a guarded map over the list together with its affected-row count, and a
`DELETE ... WHERE` as a filter.
-/

/-- Permission levels of a grant row, `"read" | "write" | "full"` in the source. -/
inductive Permission
  | read
  | write
  | full
  deriving DecidableEq, Repr

/-- Status of an assignee/grant record, `"pending" | "accepted" | "declined"`. -/
inductive AssigneeStatus
  | pending
  | accepted
  | declined
  deriving DecidableEq, Repr

/-- Result vocabulary of the resolver: `"owner" | "full" | "write" | "read"`; the
`null` outcome is `Option.none` at the use site. -/
inductive UserPerm
  | owner
  | full
  | write
  | read
  deriving DecidableEq, Repr

/-- Embedding of the `Appointment` record (fields used by the handlers under proof;
`start`/`end` are the ISO strings stored in the row, `end` renamed `end_` because
`end` is a Lean keyword). -/
structure Appointment where
  id : String
  user_id : String
  title : String
  start : String
  end_ : String
  location : Option String
  notes : Option String
  status : Option String
  deriving DecidableEq, Repr

/-- Embedding of the `AppointmentAssignee` interface of `src/types/types.ts`:
`user`, `status`, `permission` and `invited_email` are nullable/optional there. -/
structure AppointmentAssignee where
  id : String
  appointment : String
  user : Option String
  user_type : String
  status : Option AssigneeStatus
  permission : Option Permission
  invited_email : Option String
  deriving DecidableEq, Repr

/-- JavaScript truthiness test `!x` for a `string | null | undefined` value:
`null`, `undefined` and `""` are falsy. -/
def jsStrFalsy : Option String → Bool
  | none => true
  | some s => s == ""

/-- `x || null` applied to a `string | null | undefined` value: a falsy value
(including `""`) collapses to `null`. -/
def jsOrNull : Option String → Option String
  | none => none
  | some s => if s == "" then none else some s

/-- Map a grant permission into the resolver vocabulary. -/
def Permission.toUserPerm : Permission → UserPerm
  | .read => .read
  | .write => .write
  | .full => .full

/-- The predicate of the `assignees?.find(...)` call in `getUserAppointmentPermission`:
`(a.user === userId || a.invited_email === userId) && a.status === "accepted"`.
Note that both the `user` and the `invited_email` fields are compared against the
`userId` argument. -/
def assigneeMatches (userId : String) (a : AppointmentAssignee) : Bool :=
  (a.user == some userId || a.invited_email == some userId) &&
    a.status == some AssigneeStatus.accepted

/-- Embedding of `getUserAppointmentPermission` of `src/lib/permissions.ts`:
`if (!userId) return null; if (appointment.user_id === userId) return "owner";`
then the first accepted assignee found by `find` decides, and
`return assignee?.permission || null`. -/
def getUserAppointmentPermission (appointment : Appointment)
    (assignees : Option (List AppointmentAssignee)) (userId : Option String) :
    Option UserPerm :=
  if jsStrFalsy userId then none
  else if appointment.user_id == userId.getD "" then some UserPerm.owner
  else
    match (assignees.getD []).find? (assigneeMatches (userId.getD "")) with
      | some a =>
        match a.permission with
        | some p => some p.toUserPerm
        | none => none
      | none => none

/-- The authenticated session identity returned by `getSessionUser()`. -/
structure SessionUser where
  userId : String
  email : String
  deriving DecidableEq, Repr

/-- A row of the `appointment_assignee` table as written by the API routes
(columns referenced by the handlers under proof). -/
structure AssigneeRow where
  id : String
  appointment : String
  user : Option String
  invited_email : Option String
  status : String
  invitation_token : Option String
  permission : String
  invited_by : Option String
  deriving DecidableEq, Repr

/-- A row of the `dashboard_access` table. -/
structure DashboardRow where
  id : String
  owner_user_id : String
  invited_user_id : Option String
  invited_email : Option String
  status : String
  invitation_token : Option String
  permission : String
  invited_by : Option String
  deriving DecidableEq, Repr

/-- The slice of the relational store touched by the invitation lifecycle. -/
structure Db where
  appointments : List Appointment
  appointment_assignee : List AssigneeRow
  dashboard_access : List DashboardRow
  deriving DecidableEq, Repr

/-- Request body of `POST /api/invitations` (`InvitationRequest` in the source). -/
structure InvitationRequest where
  type : String
  email : String
  resourceId : String
  permission : String
  invitedUserId : Option String
  deriving DecidableEq, Repr

/-- Outcomes of `POST /api/invitations`: 200 with the token, 401 Unauthorized,
400 missing fields, 400 invalid invitation type.  The handler has no Forbidden
outcome. -/
inductive InvitationResult
  | sent (token : String)
  | unauthorized
  | missingFields
  | invalidType
  deriving DecidableEq, Repr

/-- Embedding of the POST handler of `src/app/api/invitations/route.ts`.
After the session check and the presence check on `type`, `email`, `resourceId`
and `permission`, it inserts a `pending` grant row carrying a fresh `token`
into `appointment_assignee` or `dashboard_access` according to `type`.
`token` and `newId` stand for the generated UUID and the database-assigned row id.
The handler performs no query against `db.appointments` and no ownership
comparison of any kind. -/
def postInvitation (session : Option SessionUser) (body : InvitationRequest)
    (token : String) (newId : String) (db : Db) : InvitationResult × Db :=
  match session with
  | none => (InvitationResult.unauthorized, db)
  | some user =>
    if body.type == "" || body.email == "" || body.resourceId == "" ||
        body.permission == "" then
      (InvitationResult.missingFields, db)
    else if body.type == "appointment" then
      (InvitationResult.sent token,
        { db with appointment_assignee := db.appointment_assignee ++
            [{ id := newId, appointment := body.resourceId,
               user := jsOrNull body.invitedUserId, invited_email := some body.email,
               status := "pending", invitation_token := some token,
               permission := body.permission, invited_by := some user.userId }] })
    else if body.type == "dashboard" then
      (InvitationResult.sent token,
        { db with dashboard_access := db.dashboard_access ++
            [{ id := newId, owner_user_id := body.resourceId,
               invited_user_id := jsOrNull body.invitedUserId,
               invited_email := some body.email, status := "pending",
               invitation_token := some token, permission := body.permission,
               invited_by := some user.userId }] })
    else
      (InvitationResult.invalidType, db)

/-- Outcomes of `POST /api/invitations/accept`: 400 missing token/userId,
200 for an appointment grant, 200 for a dashboard grant, and the single 404
`Invalid or already accepted invitation` used both for unknown tokens and for
tokens whose grant is no longer pending. -/
inductive RedeemResult
  | missingParams
  | acceptedAppointment
  | acceptedDashboard
  | invalidToken
  deriving DecidableEq, Repr

/-- The `WHERE invitation_token = $2 AND status = 'pending'` filter of the
redeem update on `appointment_assignee`. -/
def rowMatchesPendingToken (token : String) (r : AssigneeRow) : Bool :=
  r.invitation_token == some token && r.status == "pending"

/-- The `SET status = 'accepted', "user" = $1` effect of the redeem update on
`appointment_assignee`. -/
def acceptAssigneeRow (userId : String) (r : AssigneeRow) : AssigneeRow :=
  { r with status := "accepted", user := some userId }

/-- The `WHERE invitation_token = $2 AND status = 'pending'` filter of the
redeem update on `dashboard_access`. -/
def dashMatchesPendingToken (token : String) (r : DashboardRow) : Bool :=
  r.invitation_token == some token && r.status == "pending"

/-- The `SET status = 'accepted', invited_user_id = $1` effect of the redeem
update on `dashboard_access`. -/
def acceptDashboardRow (userId : String) (r : DashboardRow) : DashboardRow :=
  { r with status := "accepted", invited_user_id := some userId }

/-- Embedding of the POST handler of `api/invitations/accept` (token redemption):
after the presence check it runs the conditional update
`UPDATE appointment_assignee SET status = 'accepted', "user" = $1 WHERE
invitation_token = $2 AND status = 'pending' RETURNING id`; if no row was
affected it runs the analogous update on `dashboard_access`; if that too
affects no row it answers 404.  An update is a guarded map over the table and
its affected-row count is the count of rows satisfying the guard. -/
def acceptInvitation (token userId : String) (db : Db) : RedeemResult × Db :=
  if token == "" || userId == "" then (RedeemResult.missingParams, db)
  else
    let updatedA := db.appointment_assignee.map fun r =>
      if rowMatchesPendingToken token r then acceptAssigneeRow userId r else r
    let nA := db.appointment_assignee.countP (rowMatchesPendingToken token)
    let db1 := { db with appointment_assignee := updatedA }
    if nA ≠ 0 then (RedeemResult.acceptedAppointment, db1)
    else
      let updatedD := db1.dashboard_access.map fun r =>
        if dashMatchesPendingToken token r then acceptDashboardRow userId r else r
      let nD := db1.dashboard_access.countP (dashMatchesPendingToken token)
      let db2 := { db1 with dashboard_access := updatedD }
      if nD ≠ 0 then (RedeemResult.acceptedDashboard, db2)
      else (RedeemResult.invalidToken, db2)

/-- Some grant with the given token is still `pending` (in either table):
exactly the situation in which one of the two conditional updates of
`acceptInvitation` affects a row. -/
def hasPendingToken (token : String) (db : Db) : Prop :=
  (∃ r ∈ db.appointment_assignee, rowMatchesPendingToken token r = true) ∨
  (∃ r ∈ db.dashboard_access, dashMatchesPendingToken token r = true)

instance (token : String) (db : Db) : Decidable (hasPendingToken token db) := by
  unfold hasPendingToken; infer_instance

/-- Number of grant rows (of either kind) carrying the given token; the spec's
token-uniqueness invariant is `tokenCount token db ≤ 1`. -/
def tokenCount (token : String) (db : Db) : Nat :=
  db.appointment_assignee.countP (fun r => r.invitation_token == some token) +
    db.dashboard_access.countP (fun r => r.invitation_token == some token)

/-- Partial update body of `PATCH /api/appointments/[id]`: only provided fields
are applied.  (`supabaseAdmin.from("appointments").update(body)` applies
whatever columns the body carries, including `user_id`.) -/
structure AppointmentPatch where
  title : Option String
  start : Option String
  end_ : Option String
  location : Option String
  notes : Option String
  status : Option String
  user_id : Option String
  deriving DecidableEq, Repr

/-- Column-wise application of a PATCH body to a stored appointment row. -/
def applyPatch (body : AppointmentPatch) (a : Appointment) : Appointment :=
  { a with
    title := body.title.getD a.title,
    start := body.start.getD a.start,
    end_ := body.end_.getD a.end_,
    location := if body.location.isSome then body.location else a.location,
    notes := if body.notes.isSome then body.notes else a.notes,
    status := if body.status.isSome then body.status else a.status,
    user_id := body.user_id.getD a.user_id }

/-- Outcome of the PATCH handler (absent a database error it always answers 200). -/
inductive PatchResult
  | ok
  deriving DecidableEq, Repr

/-- Outcome of the DELETE handler (absent a database error it always answers 200). -/
inductive DeleteResult
  | ok
  deriving DecidableEq, Repr

/-- Embedding of the PATCH handler of `src/app/api/appointments/[id]/route.ts`:
`supabaseAdmin.from("appointments").update(body).eq("id", id)`.  The handler
reads no session and performs no permission check; the `session` argument
records the identity carried by the request, which the handler ignores. -/
def patchAppointment (_session : Option SessionUser) (id : String)
    (body : AppointmentPatch) (table : List Appointment) :
    PatchResult × List Appointment :=
  (PatchResult.ok, table.map fun a => if a.id == id then applyPatch body a else a)

/-- Embedding of the DELETE handler of `src/app/api/appointments/[id]/route.ts`:
`supabaseAdmin.from("appointments").delete().eq("id", id)`.  As with PATCH,
the request identity is never read. -/
def deleteAppointment (_session : Option SessionUser) (id : String)
    (table : List Appointment) : DeleteResult × List Appointment :=
  (DeleteResult.ok, table.filter fun a => !(a.id == id))

/-- Request body of `POST /api/appointments` (fields involved in validation;
the remaining pass-through columns behave like `location`/`notes`). -/
structure AppointmentBody where
  title : String
  start : String
  end_ : String
  location : Option String
  notes : Option String
  status : Option String
  deriving DecidableEq, Repr

/-- Outcomes of `POST /api/appointments`; the distinct 400 messages of the
source are distinct constructors. -/
inductive PostApptResult
  | created (a : Appointment)
  | unauthorized
  | missingFields
  | titleTooLong
  | invalidDate
  | endNotAfterStart
  | invalidStatus
  deriving DecidableEq, Repr

/-- `VALIDATION.MAX_TITLE_LENGTH` of `src/lib/constants.ts`. -/
def VALIDATION_MAX_TITLE_LENGTH : Nat := 200

/-- Embedding of `isValidAppointmentStatus` of `src/lib/validation.ts`. -/
def isValidAppointmentStatus (status : String) : Bool :=
  status == "done" || status == "pending" || status == "alert"

/-- Embedding of the POST handler of `src/app/api/appointments/route.ts`.
`parseDate` stands for `new Date(...).getTime()` (epoch milliseconds, `none`
for `NaN`, so `isValidDate s` is `(parseDate s).isSome`); the `end <= start`
comparison of the source is the comparison of the parsed values.  `newId`
stands for the database-assigned row id. -/
def postAppointment (parseDate : String → Option Int) (session : Option SessionUser)
    (body : AppointmentBody) (newId : String) (table : List Appointment) :
    PostApptResult × List Appointment :=
  match session with
  | none => (PostApptResult.unauthorized, table)
  | some user =>
    if body.title == "" || body.start == "" || body.end_ == "" then
      (PostApptResult.missingFields, table)
    else if VALIDATION_MAX_TITLE_LENGTH < body.title.length then
      (PostApptResult.titleTooLong, table)
    else
      match parseDate body.start, parseDate body.end_ with
      | some s, some e =>
        if e ≤ s then (PostApptResult.endNotAfterStart, table)
        else
          let row : Appointment :=
            { id := newId, user_id := user.userId, title := body.title,
              start := body.start, end_ := body.end_,
              location := jsOrNull body.location, notes := jsOrNull body.notes,
              status := jsOrNull body.status }
          match jsOrNull body.status with
          | some st =>
            if isValidAppointmentStatus st then
              (PostApptResult.created row, table ++ [row])
            else (PostApptResult.invalidStatus, table)
          | none => (PostApptResult.created row, table ++ [row])
      | _, _ => (PostApptResult.invalidDate, table)

/-- Outcomes of the invitation-discard DELETE handlers: 400 missing id,
401 unauthorized, 404 invitation not found, 200 success. -/
inductive DiscardResult
  | missingId
  | unauthorized
  | notFound
  | success
  deriving DecidableEq, Repr

/-- Embedding of the DELETE handler of
`src/app/api/appointments/[id]/permissions/route.ts` (discard an appointment
invitation): after the id presence check and the session check it runs
`DELETE FROM appointment_assignee WHERE id = $1` and answers 404 when no row
was affected.  The session identity is compared against nothing: any
authenticated user reaches the delete. -/
def deleteAppointmentInvitation (session : Option SessionUser) (grantId : String)
    (rows : List AssigneeRow) : DiscardResult × List AssigneeRow :=
  if grantId == "" then (DiscardResult.missingId, rows)
  else
    match session with
    | none => (DiscardResult.unauthorized, rows)
    | some _user =>
      let remaining := rows.filter fun r => !(r.id == grantId)
      if rows.countP (fun r => r.id == grantId) == 0 then
        (DiscardResult.notFound, remaining)
      else (DiscardResult.success, remaining)

/-- Embedding of the DELETE handler of the dashboard-scoped discard route
(`DELETE FROM dashboard_access WHERE id = $1`), identical in shape to the
appointment-scoped one. -/
def deleteDashboardInvitation (session : Option SessionUser) (grantId : String)
    (rows : List DashboardRow) : DiscardResult × List DashboardRow :=
  if grantId == "" then (DiscardResult.missingId, rows)
  else
    match session with
    | none => (DiscardResult.unauthorized, rows)
    | some _user =>
      let remaining := rows.filter fun r => !(r.id == grantId)
      if rows.countP (fun r => r.id == grantId) == 0 then
        (DiscardResult.notFound, remaining)
      else (DiscardResult.success, remaining)

/-! Concrete fixtures used by the counterexamples and witnesses. -/

/-- An appointment owned by `owner-1`. -/
def apptX : Appointment :=
  { id := "appt-1", user_id := "owner-1", title := "Checkup",
    start := "2025-01-01T10:00:00Z", end_ := "2025-01-01T11:00:00Z",
    location := none, notes := none, status := none }

/-- An accepted `write` grant on `appt-1` for user `user-1`. -/
def grantWrite : AppointmentAssignee :=
  { id := "g-write", appointment := "appt-1", user := some "user-1",
    user_type := "users", status := some AssigneeStatus.accepted,
    permission := some Permission.write, invited_email := none }

/-- An accepted `full` grant on `appt-1` for user `user-1`. -/
def grantFull : AppointmentAssignee :=
  { id := "g-full", appointment := "appt-1", user := some "user-1",
    user_type := "users", status := some AssigneeStatus.accepted,
    permission := some Permission.full, invited_email := none }

/-- An accepted grant addressed to the email `user-1@example.com` only
(`user` unset), at `read` level. -/
def grantEmailOnly : AppointmentAssignee :=
  { id := "g-email", appointment := "appt-1", user := none,
    user_type := "users", status := some AssigneeStatus.accepted,
    permission := some Permission.read, invited_email := some "user-1@example.com" }

/-- An accepted grant whose `invited_email` field holds the literal user id
string `user-1`. -/
def grantEmailIsId : AppointmentAssignee :=
  { id := "g-emailid", appointment := "appt-1", user := none,
    user_type := "users", status := some AssigneeStatus.accepted,
    permission := some Permission.full, invited_email := some "user-1" }

/-- An accepted grant for `user-1` whose optional `permission` field is absent. -/
def grantNoPerm : AppointmentAssignee :=
  { id := "g-noperm", appointment := "appt-1", user := some "user-1",
    user_type := "users", status := some AssigneeStatus.accepted,
    permission := none, invited_email := none }

/-! Theorems. -/

/-- C6: for every appointment and every assignee list, a candidate whose user id
equals the appointment's `user_id` resolves to `owner`, regardless of the grants
present (declined grants, contradictory duplicates, grants naming the owner at a
lower level included). -/
theorem owner_supremacy (a : Appointment) (as : Option (List AppointmentAssignee))
    (u : String) (hu : u ≠ "") (h : a.user_id = u) :
    getUserAppointmentPermission a as (some u) = some UserPerm.owner := by
  simp [getUserAppointmentPermission, jsStrFalsy, hu, h]

/-- Witness for C6: the owner of `appt-1` resolves to `owner` even in the
presence of accepted lower-level grants. -/
theorem owner_supremacy_witness :
    apptX.user_id = "owner-1" ∧
    getUserAppointmentPermission apptX (some [grantWrite, grantFull])
      (some "owner-1") = some UserPerm.owner :=
  ⟨by decide,
   owner_supremacy apptX (some [grantWrite, grantFull]) "owner-1"
     (by decide) (by decide)⟩

/-- C8: the resolver is a total function: a null/absent candidate user id
resolves to `none`, and every input resolves to `none`, to `owner`, or to the
image of some grant permission — never to an error. -/
theorem resolver_total_null_none (a : Appointment)
    (as : Option (List AppointmentAssignee)) :
    getUserAppointmentPermission a as none = none ∧
    ∀ u : Option String,
      getUserAppointmentPermission a as u = none ∨
      getUserAppointmentPermission a as u = some UserPerm.owner ∨
      ∃ p : Permission,
        getUserAppointmentPermission a as u = some p.toUserPerm := by
  refine ⟨rfl, ?_⟩
  intro u
  unfold getUserAppointmentPermission
  split
  · exact Or.inl rfl
  · split
    · exact Or.inr (Or.inl rfl)
    · split
      · split
        · rename_i p _
          exact Or.inr (Or.inr ⟨p, rfl⟩)
        · exact Or.inl rfl
      · exact Or.inl rfl

/-- C10: when the first accepted assignee record matched for a non-owner
candidate carries no `permission` value, the resolver yields `none` rather than
defaulting to `read` or failing. -/
theorem accepted_grant_without_permission_yields_none
    (a : Appointment) (gs : List AppointmentAssignee) (u : String)
    (g : AppointmentAssignee) (hu : u ≠ "") (hown : a.user_id ≠ u)
    (hfind : gs.find? (assigneeMatches u) = some g) (hperm : g.permission = none) :
    getUserAppointmentPermission a (some gs) (some u) = none := by
  simp [getUserAppointmentPermission, jsStrFalsy, hu, hown, hfind, hperm]

/-- Witness for C10: an accepted permission-less grant for `user-1` confers
nothing on `appt-1`. -/
theorem accepted_grant_without_permission_yields_none_witness :
    [grantNoPerm].find? (assigneeMatches "user-1") = some grantNoPerm ∧
    grantNoPerm.permission = none ∧
    getUserAppointmentPermission apptX (some [grantNoPerm]) (some "user-1") = none :=
  ⟨by decide, by decide,
   accepted_grant_without_permission_yields_none apptX [grantNoPerm] "user-1"
     grantNoPerm (by decide) (by decide) (by decide) (by decide)⟩

/-- Counterexample to C1: `user-1` holds two accepted grants on `appt-1`, at
`write` and `full`, in that list order; the resolver answers `write`, not the
claimed best-ranked `full`. -/
theorem precedence_not_applied_cex :
    getUserAppointmentPermission apptX (some [grantWrite, grantFull])
      (some "user-1") = some UserPerm.write ∧
    getUserAppointmentPermission apptX (some [grantWrite, grantFull])
      (some "user-1") ≠ some UserPerm.full := by decide

/-- C1 (amended): for a non-owner candidate the resolver returns the permission
of the first matching accepted grant in list order (its `find` scan), not the
best-ranked one. -/
theorem resolver_first_match_wins (a : Appointment)
    (gs : List AppointmentAssignee) (u : String) (g : AppointmentAssignee)
    (hu : u ≠ "") (hown : a.user_id ≠ u)
    (hfind : gs.find? (assigneeMatches u) = some g) :
    getUserAppointmentPermission a (some gs) (some u) =
      g.permission.map Permission.toUserPerm := by
  simp only [getUserAppointmentPermission, jsStrFalsy, Option.getD_some]
  rw [if_neg, if_neg, hfind]
  · cases hp : g.permission <;> simp [hp]
  · simp [hown]
  · simp [hu]

/-- Witness for C1 (amended): with the `write` grant listed first, the resolver
answers that grant's permission. -/
theorem resolver_first_match_wins_witness :
    [grantWrite, grantFull].find? (assigneeMatches "user-1") = some grantWrite ∧
    getUserAppointmentPermission apptX (some [grantWrite, grantFull])
      (some "user-1") = grantWrite.permission.map Permission.toUserPerm :=
  ⟨by decide,
   resolver_first_match_wins apptX [grantWrite, grantFull] "user-1" grantWrite
     (by decide) (by decide) (by decide)⟩

/-- Counterexample to C7: the candidate `user-1`, whose email is
`user-1@example.com`, holds an accepted `read` grant addressed to exactly that
email; the claim promises `read`, but the resolver — which receives only the
user id and compares `invited_email` against it — answers `none`. -/
theorem candidate_email_not_consulted_cex :
    grantEmailOnly.status = some AssigneeStatus.accepted ∧
    grantEmailOnly.invited_email = some "user-1@example.com" ∧
    grantEmailOnly.permission = some Permission.read ∧
    getUserAppointmentPermission apptX (some [grantEmailOnly])
      (some "user-1") = none := by decide

/-- C7 (amended): the resolver receives only the candidate's user id `u` and
matches an accepted grant exactly when `user = u` or `invited_email = u` (the
id string itself); a grant addressed to any other string — in particular the
candidate's actual email address — is not matched. -/
theorem resolver_matches_on_userid_only (a : Appointment)
    (g : AppointmentAssignee) (u : String) (hu : u ≠ "") (hown : a.user_id ≠ u) :
    ((g.user = some u ∨ g.invited_email = some u) →
      g.status = some AssigneeStatus.accepted →
      getUserAppointmentPermission a (some [g]) (some u) =
        g.permission.map Permission.toUserPerm) ∧
    (g.user ≠ some u → g.invited_email ≠ some u →
      getUserAppointmentPermission a (some [g]) (some u) = none) := by
  constructor
  · intro hmatch hacc
    refine resolver_first_match_wins a [g] u g hu hown ?_
    have hm : assigneeMatches u g = true := by
      simp [assigneeMatches, hacc]
      rcases hmatch with h | h <;> simp [h]
    simp [List.find?, hm]
  · intro hne_user hne_mail
    have hm : assigneeMatches u g = false := by
      simp [assigneeMatches, hne_user, hne_mail]
    simp [getUserAppointmentPermission, jsStrFalsy, hu, hown, List.find?, hm]

/-! Further fixtures and helper lemmas (placed with the theorems they serve;
the helper lemmas are shared infrastructure, not claim theorems). -/

/-- An authenticated session for a user who owns nothing in the fixtures. -/
def mallorySession : SessionUser :=
  { userId := "mallory", email := "mallory@example.com" }

/-- Invitation-create body targeting `appt-1` (owned by `owner-1`). -/
def bodyC2 : InvitationRequest :=
  { type := "appointment", email := "bob@example.com", resourceId := "appt-1",
    permission := "write", invitedUserId := none }

/-- Store holding only `appt-1` and no grants. -/
def dbC2 : Db :=
  { appointments := [apptX], appointment_assignee := [], dashboard_access := [] }

/-- Invitation-create body targeting the dashboard of `owner-1`. -/
def bodyC2d : InvitationRequest :=
  { type := "dashboard", email := "bob@example.com", resourceId := "owner-1",
    permission := "read", invitedUserId := none }

/-- A patch body that only retitles the appointment. -/
def pBody : AppointmentPatch :=
  { title := some "Hacked", start := none, end_ := none, location := none,
    notes := none, status := none, user_id := none }

/-- An appointment whose timestamps are the strings `0` and `100`
(epoch milliseconds under `parseFix`). -/
def apptT : Appointment :=
  { id := "appt-2", user_id := "owner-1", title := "Therapy", start := "0",
    end_ := "100", location := none, notes := none, status := none }

/-- A concrete date parse covering the fixture timestamps. -/
def parseFix : String → Option Int := fun s =>
  if s == "0" then some 0
  else if s == "100" then some 100
  else if s == "-5" then some (-5)
  else none

/-- A patch body that rewrites only the end timestamp, to before the start. -/
def badPatch : AppointmentPatch :=
  { title := none, start := none, end_ := some "-5", location := none,
    notes := none, status := none, user_id := none }

/-- A creation body whose end timestamp is before its start timestamp. -/
def bodyLate : AppointmentBody :=
  { title := "T", start := "100", end_ := "0", location := none, notes := none,
    status := none }

/-- A grant row invited by `inviter-A` for invitee `invitee-B`. -/
def grantAB : AssigneeRow :=
  { id := "grant-5", appointment := "appt-1", user := some "invitee-B",
    invited_email := some "b@example.com", status := "accepted",
    invitation_token := some "tok-5", permission := "write",
    invited_by := some "inviter-A" }

/-- A dashboard grant row invited by `inviter-A` for invitee `invitee-B`. -/
def dashAB : DashboardRow :=
  { id := "dash-5", owner_user_id := "inviter-A", invited_user_id := some "invitee-B",
    invited_email := some "b@example.com", status := "accepted",
    invitation_token := some "tok-6", permission := "read",
    invited_by := some "inviter-A" }

/-- A pending appointment grant carrying token `tok-7`. -/
def grantPend : AssigneeRow :=
  { id := "grant-7", appointment := "appt-1", user := none,
    invited_email := some "bob@example.com", status := "pending",
    invitation_token := some "tok-7", permission := "full",
    invited_by := some "owner-1" }

/-- Store holding `appt-1` and the single pending grant `grant-7`. -/
def dbR : Db :=
  { appointments := [apptX], appointment_assignee := [grantPend],
    dashboard_access := [] }

/-- A guarded update touches nothing when no row satisfies the guard. -/
theorem update_map_no_match {α : Type} (p : α → Bool) (f : α → α) (l : List α)
    (h : ∀ x ∈ l, p x = false) :
    (l.map fun x => if p x then f x else x) = l := by
  induction l with
  | nil => rfl
  | cons a t ih =>
    have ha := h a (by simp)
    simp [ha, ih fun x hx => h x (by simp [hx])]

/-- Affected-row count is zero exactly when no row satisfies the guard. -/
theorem countP_zero_iff_all_false {α : Type} (p : α → Bool) (l : List α) :
    l.countP p = 0 ↔ ∀ x ∈ l, p x = false := by
  rw [List.countP_eq_zero]
  constructor
  · intro h x hx
    cases hp : p x
    · rfl
    · exact absurd hp (h x hx)
  · intro h x hx
    simp [h x hx]

/-- Falsity of a stronger guard transfers along an implication between guards. -/
theorem all_false_mono {α : Type} (q t : α → Bool) (l : List α)
    (himp : ∀ x, q x = true → t x = true) (h : ∀ x ∈ l, t x = false) :
    ∀ x ∈ l, q x = false := by
  intro x hx
  cases hq : q x
  · rfl
  · exact absurd (himp x hq) (by simp [h x hx])

/-- A guarded update on a list whose sole guard-satisfying row is `r` replaces
exactly `r` and reports one affected row. -/
theorem update_map_single {α : Type} (p : α → Bool) (f : α → α)
    (pre post : List α) (r : α) (hpre : ∀ x ∈ pre, p x = false)
    (hpost : ∀ x ∈ post, p x = false) (hr : p r = true) :
    ((pre ++ r :: post).map fun x => if p x then f x else x) =
      pre ++ f r :: post ∧
    (pre ++ r :: post).countP p = 1 := by
  constructor
  · rw [List.map_append, List.map_cons, if_pos hr,
      update_map_no_match p f pre hpre, update_map_no_match p f post hpost]
  · rw [List.countP_append, List.countP_cons_of_pos _ _ hr,
      (countP_zero_iff_all_false p pre).mpr hpre,
      (countP_zero_iff_all_false p post).mpr hpost]

/-- Counterexample to C2: the authenticated caller `mallory` owns neither
`appt-1` (owned by `owner-1`) nor the dashboard of `owner-1`, yet both an
appointment-typed and a dashboard-typed invitation-create request succeed and
insert a grant row into `appointment_assignee` resp. `dashboard_access` —
there is no Forbidden outcome and no ownership check. -/
theorem invitation_create_not_ownership_gated_cex :
    apptX.user_id ≠ mallorySession.userId ∧
    dbC2.appointments.find? (fun a => a.id == bodyC2.resourceId) = some apptX ∧
    (postInvitation (some mallorySession) bodyC2 "tok-1" "row-1" dbC2).fst =
      InvitationResult.sent "tok-1" ∧
    dbC2.appointment_assignee.length = 0 ∧
    (postInvitation (some mallorySession) bodyC2 "tok-1" "row-1"
      dbC2).snd.appointment_assignee.length = 1 ∧
    bodyC2d.type = "dashboard" ∧ bodyC2d.resourceId = "owner-1" ∧
    mallorySession.userId ≠ "owner-1" ∧
    (postInvitation (some mallorySession) bodyC2d "tok-2" "row-2" dbC2).fst =
      InvitationResult.sent "tok-2" ∧
    dbC2.dashboard_access.length = 0 ∧
    (postInvitation (some mallorySession) bodyC2d "tok-2" "row-2"
      dbC2).snd.dashboard_access.length = 1 := by decide

/-- C2 (amended): `POST /api/invitations` checks only authentication and field
presence; for every authenticated caller — owner of the target resource or not
— a well-formed appointment-typed request succeeds and appends exactly one
pending grant row to `appointment_assignee`, and a well-formed dashboard-typed
request succeeds and appends exactly one pending grant row to
`dashboard_access`, each carrying the fresh token. -/
theorem invitation_create_requires_only_auth (user : SessionUser)
    (body : InvitationRequest) (token newId : String) (db : Db)
    (hmail : body.email ≠ "") (hres : body.resourceId ≠ "")
    (hperm : body.permission ≠ "") :
    (body.type = "appointment" →
      postInvitation (some user) body token newId db =
        (InvitationResult.sent token,
          { db with appointment_assignee := db.appointment_assignee ++
              [{ id := newId, appointment := body.resourceId,
                 user := jsOrNull body.invitedUserId,
                 invited_email := some body.email, status := "pending",
                 invitation_token := some token, permission := body.permission,
                 invited_by := some user.userId }] })) ∧
    (body.type = "dashboard" →
      postInvitation (some user) body token newId db =
        (InvitationResult.sent token,
          { db with dashboard_access := db.dashboard_access ++
              [{ id := newId, owner_user_id := body.resourceId,
                 invited_user_id := jsOrNull body.invitedUserId,
                 invited_email := some body.email, status := "pending",
                 invitation_token := some token, permission := body.permission,
                 invited_by := some user.userId }] })) := by
  constructor
  · intro hty
    simp [postInvitation, hty, hmail, hres, hperm]
  · intro hty
    simp [postInvitation, hty, hmail, hres, hperm]

/-- Witness for C2 (amended): the non-owner `mallory` successfully inserts a
pending appointment grant on `appt-1` and a pending dashboard grant on the
dashboard of `owner-1`. -/
theorem invitation_create_requires_only_auth_witness :
    postInvitation (some mallorySession) bodyC2 "tok-1" "row-1" dbC2 =
      (InvitationResult.sent "tok-1",
        { dbC2 with appointment_assignee := dbC2.appointment_assignee ++
            [{ id := "row-1", appointment := bodyC2.resourceId,
               user := jsOrNull bodyC2.invitedUserId,
               invited_email := some bodyC2.email, status := "pending",
               invitation_token := some "tok-1", permission := bodyC2.permission,
               invited_by := some mallorySession.userId }] }) ∧
    postInvitation (some mallorySession) bodyC2d "tok-2" "row-2" dbC2 =
      (InvitationResult.sent "tok-2",
        { dbC2 with dashboard_access := dbC2.dashboard_access ++
            [{ id := "row-2", owner_user_id := bodyC2d.resourceId,
               invited_user_id := jsOrNull bodyC2d.invitedUserId,
               invited_email := some bodyC2d.email, status := "pending",
               invitation_token := some "tok-2", permission := bodyC2d.permission,
               invited_by := some mallorySession.userId }] }) :=
  ⟨(invitation_create_requires_only_auth mallorySession bodyC2 "tok-1" "row-1"
      dbC2 (by decide) (by decide) (by decide)).1 rfl,
   (invitation_create_requires_only_auth mallorySession bodyC2d "tok-2" "row-2"
      dbC2 (by decide) (by decide) (by decide)).2 rfl⟩

/-- Counterexample to C4: the non-owner `mallory`, holding no grant of any kind,
retitles and then deletes `appt-1` through PATCH and DELETE; both succeed and
the stored appointment changes. -/
theorem appointment_mutation_unguarded_cex :
    apptX.user_id ≠ mallorySession.userId ∧
    patchAppointment (some mallorySession) "appt-1" pBody [apptX] =
      (PatchResult.ok, [applyPatch pBody apptX]) ∧
    applyPatch pBody apptX ≠ apptX ∧
    deleteAppointment (some mallorySession) "appt-1" [apptX] =
      (DeleteResult.ok, []) := by decide

/-- C4 (amended): the PATCH and DELETE handlers of `/api/appointments/[id]`
consult no identity and no grants: their outcome is the same for every caller,
they always report success, PATCH rewrites every row with the requested id, and
DELETE removes it. -/
theorem appointment_mutation_unguarded (s1 s2 : Option SessionUser) (id : String)
    (body : AppointmentPatch) (table : List Appointment) (a : Appointment)
    (ha : a ∈ table) (hid : a.id = id) :
    patchAppointment s1 id body table = patchAppointment s2 id body table ∧
    deleteAppointment s1 id table = deleteAppointment s2 id table ∧
    (patchAppointment s1 id body table).fst = PatchResult.ok ∧
    applyPatch body a ∈ (patchAppointment s1 id body table).snd ∧
    a ∉ (deleteAppointment s1 id table).snd := by
  refine ⟨rfl, rfl, rfl, ?_, ?_⟩
  · have h := List.mem_map_of_mem
      (fun x => if x.id == id then applyPatch body x else x) ha
    simpa [patchAppointment, hid] using h
  · intro hmem
    simp only [deleteAppointment] at hmem
    rw [List.mem_filter] at hmem
    simp [hid] at hmem

/-- Witness for C4 (amended): instantiated on `appt-1` with callers `mallory`
and unauthenticated. -/
theorem appointment_mutation_unguarded_witness :
    patchAppointment (some mallorySession) "appt-1" pBody [apptX] =
      patchAppointment none "appt-1" pBody [apptX] ∧
    deleteAppointment (some mallorySession) "appt-1" [apptX] =
      deleteAppointment none "appt-1" [apptX] ∧
    (patchAppointment (some mallorySession) "appt-1" pBody [apptX]).fst =
      PatchResult.ok ∧
    applyPatch pBody apptX ∈
      (patchAppointment (some mallorySession) "appt-1" pBody [apptX]).snd ∧
    apptX ∉ (deleteAppointment (some mallorySession) "appt-1" [apptX]).snd :=
  appointment_mutation_unguarded (some mallorySession) none "appt-1" pBody
    [apptX] apptX (by decide) rfl

/-- Counterexample to C9: `appt-2` starts at time 0 and ends at time 100; a
PATCH rewriting its end to time −5 succeeds, leaving a stored appointment whose
end is not strictly after its start. -/
theorem update_skips_time_validation_cex :
    parseFix apptT.start = some 0 ∧ parseFix apptT.end_ = some 100 ∧
    patchAppointment (some mallorySession) "appt-2" badPatch [apptT] =
      (PatchResult.ok, [{ apptT with end_ := "-5" }]) ∧
    parseFix "-5" = some (-5) ∧ (-5 : Int) ≤ 0 := by decide

/-- C9 (amended): creation (`POST /api/appointments`) rejects a body whose end
does not lie strictly after its start with a 400 and inserts nothing, but the
update handlers validate nothing: PATCH always reports success. -/
theorem end_after_start_checked_on_create_only (parseDate : String → Option Int)
    (user : SessionUser) (body : AppointmentBody) (newId : String)
    (table : List Appointment) (s e : Int) (ht : body.title ≠ "")
    (hs : body.start ≠ "") (he : body.end_ ≠ "")
    (hlen : body.title.length ≤ VALIDATION_MAX_TITLE_LENGTH)
    (hps : parseDate body.start = some s) (hpe : parseDate body.end_ = some e)
    (hle : e ≤ s) :
    postAppointment parseDate (some user) body newId table =
      (PostApptResult.endNotAfterStart, table) ∧
    ∀ sess id b t, (patchAppointment sess id b t).fst = PatchResult.ok := by
  refine ⟨?_, fun sess id b t => rfl⟩
  simp [postAppointment, ht, hs, he, Nat.not_lt.mpr hlen, hps, hpe, hle]

/-- Witness for C9 (amended): a creation body running from time 100 to time 0
is rejected with the end-not-after-start error, while PATCH reports success on
anything. -/
theorem end_after_start_checked_on_create_only_witness :
    postAppointment parseFix (some mallorySession) bodyLate "row-9" [] =
      (PostApptResult.endNotAfterStart, []) ∧
    (patchAppointment none "appt-2" badPatch []).fst = PatchResult.ok :=
  ⟨(end_after_start_checked_on_create_only parseFix mallorySession bodyLate
      "row-9" [] 100 0 (by decide) (by decide) (by decide) (by decide)
      (by decide) (by decide) (by decide)).1,
   (end_after_start_checked_on_create_only parseFix mallorySession bodyLate
      "row-9" [] 100 0 (by decide) (by decide) (by decide) (by decide)
      (by decide) (by decide) (by decide)).2 none "appt-2" badPatch []⟩

/-- C5: the discard handlers delete the grant for any authenticated caller.
`stranger-C` is neither the inviter (`inviter-A`) nor the invitee (`invitee-B`,
`b@example.com`) of either grant, yet both discard requests succeed and the
rows are deleted — the source's own comment demands an inviter-or-invitee
check that the code does not perform. -/
theorem discard_by_third_party_deletes :
    grantAB.invited_by = some "inviter-A" ∧ grantAB.user = some "invitee-B" ∧
    grantAB.invited_email = some "b@example.com" ∧
    dashAB.invited_by = some "inviter-A" ∧
    dashAB.invited_user_id = some "invitee-B" ∧
    deleteAppointmentInvitation (some ⟨"stranger-C", "c@example.com"⟩)
      "grant-5" [grantAB] = (DiscardResult.success, []) ∧
    deleteDashboardInvitation (some ⟨"stranger-C", "c@example.com"⟩)
      "dash-5" [dashAB] = (DiscardResult.success, []) := by decide

/-- A row matched by the redeem filter carries the token. -/
theorem rowMatches_token {token : String} {r : AssigneeRow}
    (h : rowMatchesPendingToken token r = true) :
    (r.invitation_token == some token) = true := by
  simp [rowMatchesPendingToken] at h
  simp [h.1]

/-- A dashboard row matched by the redeem filter carries the token. -/
theorem dashMatches_token {token : String} {r : DashboardRow}
    (h : dashMatchesPendingToken token r = true) :
    (r.invitation_token == some token) = true := by
  simp [dashMatchesPendingToken] at h
  simp [h.1]

/-- A redeemed (accepted) row no longer satisfies the pending-token filter. -/
theorem accept_assignee_not_pending (token userId : String) (r : AssigneeRow) :
    rowMatchesPendingToken token (acceptAssigneeRow userId r) = false := by
  simp [rowMatchesPendingToken, acceptAssigneeRow]

/-- A redeemed (accepted) dashboard row no longer satisfies the filter. -/
theorem accept_dashboard_not_pending (token userId : String) (r : DashboardRow) :
    dashMatchesPendingToken token (acceptDashboardRow userId r) = false := by
  simp [dashMatchesPendingToken, acceptDashboardRow]

/-- Token uniqueness, specialised: when the unique token sits on row `r` of the
appointment table, no other row of either table carries it. -/
theorem token_unique_split_appt (token : String) (db : Db)
    (pre post : List AssigneeRow) (r : AssigneeRow)
    (huniq : tokenCount token db ≤ 1)
    (hdec : db.appointment_assignee = pre ++ r :: post)
    (hr : (r.invitation_token == some token) = true) :
    (∀ x ∈ pre, (x.invitation_token == some token) = false) ∧
    (∀ x ∈ post, (x.invitation_token == some token) = false) ∧
    (∀ x ∈ db.dashboard_access, (x.invitation_token == some token) = false) := by
  unfold tokenCount at huniq
  rw [hdec, List.countP_append, List.countP_cons, hr] at huniq
  simp only [if_true] at huniq
  refine ⟨(countP_zero_iff_all_false _ _).mp (by omega),
    (countP_zero_iff_all_false _ _).mp (by omega),
    (countP_zero_iff_all_false _ _).mp (by omega)⟩

/-- Token uniqueness, specialised: when the unique token sits on row `r` of the
dashboard table, no other row of either table carries it. -/
theorem token_unique_split_dash (token : String) (db : Db)
    (pre post : List DashboardRow) (r : DashboardRow)
    (huniq : tokenCount token db ≤ 1)
    (hdec : db.dashboard_access = pre ++ r :: post)
    (hr : (r.invitation_token == some token) = true) :
    (∀ x ∈ db.appointment_assignee, (x.invitation_token == some token) = false) ∧
    (∀ x ∈ pre, (x.invitation_token == some token) = false) ∧
    (∀ x ∈ post, (x.invitation_token == some token) = false) := by
  unfold tokenCount at huniq
  rw [hdec, List.countP_append, List.countP_cons, hr] at huniq
  simp only [if_true] at huniq
  refine ⟨(countP_zero_iff_all_false _ _).mp (by omega),
    (countP_zero_iff_all_false _ _).mp (by omega),
    (countP_zero_iff_all_false _ _).mp (by omega)⟩

/-- When no grant with the token is pending, redemption answers the single 404
and leaves the store untouched. -/
theorem acceptInvitation_no_pending (token userId : String) (ht : token ≠ "")
    (hu : userId ≠ "") (db : Db) (hnp : ¬ hasPendingToken token db) :
    acceptInvitation token userId db = (RedeemResult.invalidToken, db) := by
  have hcond : ¬((token == "" || userId == "") = true) := by simp [ht, hu]
  have hAfalse : ∀ x ∈ db.appointment_assignee,
      rowMatchesPendingToken token x = false := by
    intro x hx
    cases hq : rowMatchesPendingToken token x
    · rfl
    · exact absurd (Or.inl ⟨x, hx, hq⟩) hnp
  have hDfalse : ∀ x ∈ db.dashboard_access,
      dashMatchesPendingToken token x = false := by
    intro x hx
    cases hq : dashMatchesPendingToken token x
    · rfl
    · exact absurd (Or.inr ⟨x, hx, hq⟩) hnp
  have hA0 := (countP_zero_iff_all_false _ _).mpr hAfalse
  have hD0 := (countP_zero_iff_all_false _ _).mpr hDfalse
  have hAid := update_map_no_match (rowMatchesPendingToken token)
    (acceptAssigneeRow userId) db.appointment_assignee hAfalse
  have hDid := update_map_no_match (dashMatchesPendingToken token)
    (acceptDashboardRow userId) db.dashboard_access hDfalse
  unfold acceptInvitation
  rw [if_neg hcond]
  dsimp only
  rw [hA0, hD0, hAid, hDid]
  simp

/-- C3: token redemption is the status-guarded conditional update.  With a real
token and user id: (1) when no grant with the token is pending — never issued,
already accepted, or declined — the result is the single 404 and no grant
changes; (2) under the token-uniqueness invariant, a pending appointment grant
with the token is redeemed by flipping exactly that row to `accepted` and
binding the redeeming user, every other row untouched, and redeeming the same
token again yields exactly the not-found error of a token that never existed;
(3) likewise for a pending dashboard grant. -/
theorem redeem_conditional_update (token userId : String) (ht : token ≠ "")
    (hu : userId ≠ "") :
    (∀ db : Db, ¬ hasPendingToken token db →
        acceptInvitation token userId db = (RedeemResult.invalidToken, db)) ∧
    (∀ db : Db, tokenCount token db ≤ 1 →
      ∀ pre r post, db.appointment_assignee = pre ++ r :: post →
        rowMatchesPendingToken token r = true →
        acceptInvitation token userId db =
          (RedeemResult.acceptedAppointment,
            { db with appointment_assignee :=
                pre ++ acceptAssigneeRow userId r :: post }) ∧
        acceptInvitation token userId
            { db with appointment_assignee :=
                pre ++ acceptAssigneeRow userId r :: post } =
          (RedeemResult.invalidToken,
            { db with appointment_assignee :=
                pre ++ acceptAssigneeRow userId r :: post })) ∧
    (∀ db : Db, tokenCount token db ≤ 1 →
      ∀ pre r post, db.dashboard_access = pre ++ r :: post →
        dashMatchesPendingToken token r = true →
        acceptInvitation token userId db =
          (RedeemResult.acceptedDashboard,
            { db with dashboard_access :=
                pre ++ acceptDashboardRow userId r :: post }) ∧
        acceptInvitation token userId
            { db with dashboard_access :=
                pre ++ acceptDashboardRow userId r :: post } =
          (RedeemResult.invalidToken,
            { db with dashboard_access :=
                pre ++ acceptDashboardRow userId r :: post })) := by
  have hcond : ¬((token == "" || userId == "") = true) := by simp [ht, hu]
  refine ⟨fun db hnp => acceptInvitation_no_pending token userId ht hu db hnp,
    ?_, ?_⟩
  · intro db huniq pre r post hdec hr
    have htok := rowMatches_token hr
    obtain ⟨hpreT, hpostT, hdashT⟩ :=
      token_unique_split_appt token db pre post r huniq hdec htok
    have hpreF := all_false_mono (rowMatchesPendingToken token)
      (fun y => y.invitation_token == some token) pre
      (fun y hy => rowMatches_token hy) hpreT
    have hpostF := all_false_mono (rowMatchesPendingToken token)
      (fun y => y.invitation_token == some token) post
      (fun y hy => rowMatches_token hy) hpostT
    obtain ⟨hmap, hcount⟩ := update_map_single (rowMatchesPendingToken token)
      (acceptAssigneeRow userId) pre post r hpreF hpostF hr
    constructor
    · unfold acceptInvitation
      rw [if_neg hcond]
      dsimp only
      rw [hdec, hcount, hmap]
      simp
    · apply acceptInvitation_no_pending token userId ht hu
      intro hcontra
      unfold hasPendingToken at hcontra
      rcases hcontra with ⟨x, hx, hmx⟩ | ⟨x, hx, hmx⟩
      · rcases List.mem_append.mp hx with hx | hx
        · simp [hpreF x hx] at hmx
        · rcases List.mem_cons.mp hx with rfl | hx
          · simp [accept_assignee_not_pending] at hmx
          · simp [hpostF x hx] at hmx
      · have hfd := all_false_mono (dashMatchesPendingToken token)
          (fun y => y.invitation_token == some token) db.dashboard_access
          (fun y hy => dashMatches_token hy) hdashT x hx
        simp [hfd] at hmx
  · intro db huniq pre r post hdec hr
    have htok := dashMatches_token hr
    obtain ⟨happtT, hpreT, hpostT⟩ :=
      token_unique_split_dash token db pre post r huniq hdec htok
    have happtF := all_false_mono (rowMatchesPendingToken token)
      (fun y => y.invitation_token == some token) db.appointment_assignee
      (fun y hy => rowMatches_token hy) happtT
    have hpreF := all_false_mono (dashMatchesPendingToken token)
      (fun y => y.invitation_token == some token) pre
      (fun y hy => dashMatches_token hy) hpreT
    have hpostF := all_false_mono (dashMatchesPendingToken token)
      (fun y => y.invitation_token == some token) post
      (fun y hy => dashMatches_token hy) hpostT
    have hA0 := (countP_zero_iff_all_false _ _).mpr happtF
    have hAid := update_map_no_match (rowMatchesPendingToken token)
      (acceptAssigneeRow userId) db.appointment_assignee happtF
    obtain ⟨hmap, hcount⟩ := update_map_single (dashMatchesPendingToken token)
      (acceptDashboardRow userId) pre post r hpreF hpostF hr
    constructor
    · unfold acceptInvitation
      rw [if_neg hcond]
      dsimp only
      rw [hA0, hAid, hdec, hcount, hmap]
      simp
    · apply acceptInvitation_no_pending token userId ht hu
      intro hcontra
      unfold hasPendingToken at hcontra
      rcases hcontra with ⟨x, hx, hmx⟩ | ⟨x, hx, hmx⟩
      · simp [happtF x hx] at hmx
      · rcases List.mem_append.mp hx with hx | hx
        · simp [hpreF x hx] at hmx
        · rcases List.mem_cons.mp hx with rfl | hx
          · simp [accept_dashboard_not_pending] at hmx
          · simp [hpostF x hx] at hmx

/-- Witness for C3: redeeming `tok-7` flips the single pending grant to
`accepted` bound to `user-2`; redeeming it again, and redeeming a token never
issued, both yield exactly the 404 result and change nothing. -/
theorem redeem_conditional_update_witness :
    acceptInvitation "tok-7" "user-2" dbR =
      (RedeemResult.acceptedAppointment,
        { dbR with appointment_assignee :=
            [] ++ acceptAssigneeRow "user-2" grantPend :: [] }) ∧
    acceptInvitation "tok-7" "user-2"
        { dbR with appointment_assignee :=
            [] ++ acceptAssigneeRow "user-2" grantPend :: [] } =
      (RedeemResult.invalidToken,
        { dbR with appointment_assignee :=
            [] ++ acceptAssigneeRow "user-2" grantPend :: [] }) ∧
    acceptInvitation "tok-404" "user-2" dbR = (RedeemResult.invalidToken, dbR) :=
  ⟨((redeem_conditional_update "tok-7" "user-2" (by decide) (by decide)).2.1 dbR
      (by decide) [] grantPend [] rfl (by decide)).1,
   ((redeem_conditional_update "tok-7" "user-2" (by decide) (by decide)).2.1 dbR
      (by decide) [] grantPend [] rfl (by decide)).2,
   (redeem_conditional_update "tok-404" "user-2" (by decide) (by decide)).1 dbR
      (by decide)⟩

/-- Witness for C7 (amended): a grant whose `invited_email` holds the literal
id string `user-1` is matched for candidate `user-1`, while the grant addressed
to the candidate's actual email address is not. -/
theorem resolver_matches_on_userid_only_witness :
    getUserAppointmentPermission apptX (some [grantEmailIsId]) (some "user-1") =
      grantEmailIsId.permission.map Permission.toUserPerm ∧
    getUserAppointmentPermission apptX (some [grantEmailOnly]) (some "user-1") =
      none :=
  ⟨(resolver_matches_on_userid_only apptX grantEmailIsId "user-1" (by decide)
      (by decide)).1 (Or.inr (by decide)) (by decide),
   (resolver_matches_on_userid_only apptX grantEmailOnly "user-1" (by decide)
      (by decide)).2 (by decide) (by decide)⟩
